import Mathlib

/-!
Verification of the GitHub code-review MCP server (`src/main.py`) against its
natural-language specification.  The Python module is shallowly embedded:

* dicts produced by the fetch pipeline become the `FileRecord` structure
  (an absent dict key is modelled by `none` / a `false` flag);
* the process-lifetime store `repo_data` becomes a function
  `String → Option Snapshot`;
* network I/O is modelled by data supplied in the environment: the outcome of
  `fetch_repo_info` is an `Except`, and the tree of responses served by the
  GitHub contents API is the inductive `RTree`.

Python source line numbers are cited next to each definition.
-/

namespace McpServerDemo

/-- One fetched file, as built by `fetch_file_content` / `fetch_repo_files`
(`main.py` lines 669-694 and 701-739).  `content = none` models a dict that
has no `"content"` key at all; the pipeline itself always stores a string
there (for binary and oversized files it is a sentinel message). -/
structure FileRecord where
  content : Option String
  path : String
  size : Nat
  too_large : Bool
  is_binary : Bool
deriving Repr, DecidableEq

/-- The record built for an oversized directory entry (`main.py` 677-682). -/
def tooLargeRecord (p : String) (s : Nat) : FileRecord :=
  { content := some ("File too large to fetch (" ++ toString s ++ " bytes)")
    path := p
    size := s
    too_large := true
    is_binary := false }

/-- The record built when base64 payload fails UTF-8 decoding
(`main.py` 720-727). -/
def binaryRecord (p : String) (s : Nat) : FileRecord :=
  { content := some "Binary file (cannot display content)"
    path := p
    size := s
    too_large := false
    is_binary := true }

/-- The extension allow-list of `is_code_file` (`main.py` 757-760). -/
def code_extensions : List String :=
  [".py", ".js", ".ts", ".jsx", ".tsx", ".java", ".c", ".cpp", ".cs",
   ".go", ".rb", ".php", ".swift", ".kt", ".rs", ".html", ".css", ".scss"]

/-- Python `str.endswith`, computed on the character list. -/
def strEndsWith (s suffix : String) : Bool :=
  suffix.toList.isSuffixOf s.toList

/-- `is_code_file` (`main.py` 755-761): membership of the path suffix in the
allow-list. -/
def is_code_file (path : String) : Bool :=
  code_extensions.any (fun ext => strEndsWith path ext)

/-- The retention test of `prepare_code_for_review` (`main.py` 745-750): the
value is a dict carrying a `"content"` key, and the path has a code
extension.  Note the Python code tests only for the *presence* of the
`"content"` key; it never looks at the `is_binary` / `too_large` flags. -/
def reviewPred (e : String × FileRecord) : Bool :=
  e.2.content.isSome && is_code_file e.1

/-- `prepare_code_for_review` (`main.py` 742-752): keep exactly the entries
passing `reviewPred`, in input order. -/
def prepare_code_for_review (files : List (String × FileRecord)) :
    List (String × FileRecord) :=
  files.filter reviewPred

/-! ### URL resolution (`review_repository`, `main.py` 39-51) -/

/-- The part of a parsed URL that `review_repository` consults
(`urlparse(repo_url).netloc` and `.path`). -/
structure Url where
  netloc : String
  path : String
deriving Repr, DecidableEq

/-- Python substring containment (`needle in hay`), on character lists. -/
def listHasSub (needle : List Char) : List Char → Bool
  | [] => needle.isPrefixOf []
  | c :: cs => needle.isPrefixOf (c :: cs) || listHasSub needle cs

/-- The host test of `main.py` line 42: `"github.com" in parsed_url.netloc`. -/
def hostAccepted (u : Url) : Bool :=
  listHasSub "github.com".toList u.netloc.toList

/-- Python `str.split(sep)` for a one-character separator, on the character
list. -/
def splitChar (sep : Char) : List Char → List (List Char)
  | [] => [[]]
  | c :: cs =>
    if c == sep then [] :: splitChar sep cs
    else
      match splitChar sep cs with
      | r :: rs => (c :: r) :: rs
      | [] => [[c]]

/-- Python `str.split(sep)` on strings. -/
def strSplitChar (s : String) (sep : Char) : List String :=
  (splitChar sep s.toList).map String.mk

/-- Python `str.lower()`, computed per character. -/
def strToLower (s : String) : String :=
  String.mk (s.toList.map Char.toLower)

/-- The path split of `main.py` line 46:
`[p for p in parsed_url.path.split("/") if p]`. -/
def urlSegments (u : Url) : List String :=
  (strSplitChar u.path '/').filter (fun s => s != "")

/-- Outcome of the URL-resolution prefix of `review_repository`. -/
inductive ResolveResult where
  | wrongHost
  | malformedPath
  | ok (owner : String) (repo : String)
deriving Repr, DecidableEq

/-- URL resolution as performed by `review_repository` (`main.py` 40-51):
substring host test, then require two nonempty path segments; the first is
the owner, the second the repository name, the rest is ignored. -/
def resolveRepoUrl (u : Url) : ResolveResult :=
  if hostAccepted u then
    match urlSegments u with
    | owner :: repo :: _ => .ok owner repo
    | _ => .malformedPath
  else .wrongHost

/-! ### The repository walker (`fetch_repo_files`, `main.py` 645-698) -/

/-- Error classification of a non-200 contents response
(`main.py` 653-662, 729-737). -/
inductive FetchErr where
  | rateLimited (details : String)
  | notFound (path : String)
  | upstream (status : Nat) (details : String)
deriving Repr, DecidableEq

/-- The tree of responses the GitHub contents API serves for one repository.
A node is the response for one path:

* `fileN p s fres`: a listing entry (or single object) of `type = "file"`
  with reported path `p` and size `s`; `fres` is what `fetch_file_content`
  returns when (and if) the walker fetches that file's content;
* `dirN p children`: a directory whose listing request succeeds and returns
  `children`;
* `dirErrN p e`: a directory whose own listing request fails with `e`. -/
inductive RTree where
  | fileN (p : String) (s : Nat) (fres : Except FetchErr FileRecord)
  | dirN (p : String) (children : List RTree)
  | dirErrN (p : String) (e : FetchErr)
deriving Repr

/-- Number of `/` characters in a path (Python `path.count("/")`). -/
def slashCount (s : String) : Nat :=
  s.toList.count '/'

mutual

/-- `fetch_repo_files(owner, repo, path)` (`main.py` 645-698) for the node
serving `path`.  A failed listing is the only error returned (line 653-662);
a directory listing is folded over by `processItems`; a single `file` object
re-fetches its content and, on a fetch error, yields the *empty* dict — the
error is dropped, not propagated (lines 690-694; note the code keys the
single-file result by the `path` argument). -/
def fetchRepoFilesAt : String → RTree → Except FetchErr (List (String × FileRecord))
  | _, .dirErrN _ e => .error e
  | path, .dirN _ children => .ok (processItems path children)
  | path, .fileN _ _ fres =>
    match fres with
    | .error _ => .ok []
    | .ok fr => .ok [(path, fr)]

/-- The `for item in contents` loop of `main.py` 669-688; `path` is the
enclosing call's path argument.  `result.update` over origin-unique paths is
list concatenation. -/
def processItems : String → List RTree → List (String × FileRecord)
  | _, [] => []
  | path, item :: rest => processItem path item ++ processItems path rest

/-- One iteration of the loop (`main.py` 670-688):

* `type = "file"` (lines 670-682): below 1 MiB the content is fetched and an
  erroring fetch is silently skipped (`if "error" not in file_content`);
  at or above 1 MiB a `tooLargeRecord` is emitted without any fetch;
* `type = "dir"` (lines 683-688): recurse only when the *current* path has
  fewer than three `/` separators; the recursive `fetch_repo_files` call on
  a `dirN` child returns `.ok` of its items, and on a `dirErrN` child
  returns an error which the guard `if "error" not in sub_contents`
  discards — so both gated branches are written out here with the recursive
  call's value inlined. -/
def processItem : String → RTree → List (String × FileRecord)
  | _, .fileN p s fres =>
    if s < 1024 * 1024 then
      match fres with
      | .error _ => []
      | .ok fr => [(p, fr)]
    else
      [(p, tooLargeRecord p s)]
  | path, .dirN p children =>
    if slashCount path < 3 then processItems p children else []
  | _, .dirErrN _ _ => []

end

/-- The top-level walk: `fetch_repo_files(owner, repo)` starts at the root
path `""` (`main.py` 59, 645). -/
def fetch_repo_files (root : RTree) : Except FetchErr (List (String × FileRecord)) :=
  fetchRepoFilesAt "" root

/-! ### The repository store and the stored snapshot -/

/-- The placeholder review returned by `generate_review` (`main.py` 784-799). -/
structure ReviewResults where
  summary : String
  details : String
deriving Repr, DecidableEq

/-- `generate_review` (`main.py` 784-799): the prompt argument is ignored and
a fixed payload is returned. -/
def generate_review (_prompt : String) : ReviewResults :=
  { summary := "Code review generated successfully"
    details := "This is a placeholder for the actual code review that would be generated by Claude." }

/-- The `quality_metrics` dict shape read by `generate_cascade_prompt`
(`main.py` 460-463): only the optional `recommendations` list is consulted. -/
structure QualityMetrics where
  recommendations : Option (List String)
deriving Repr, DecidableEq

/-- A `vulnerabilities` item as read by `generate_cascade_prompt`
(`main.py` 466-470). -/
structure Vulnerability where
  severity : String
  location : String
  description : String
  remediation : String
deriving Repr, DecidableEq

/-- A `performance_issues` item as read by `generate_cascade_prompt`
(`main.py` 473-477). -/
structure PerfIssue where
  severity : String
  location : String
  description : String
  suggestion : String
deriving Repr, DecidableEq

/-- The dict stored in `repo_data[repo_key]`.  Fields model every key that
any part of the source reads from or writes to such a dict; `none` models an
absent key.  `review_repository` (`main.py` 74-78) writes exactly
`repo_info`, `review_results` and `focus_areas`; all other keys are read
elsewhere (`code_content` at lines 141 and 567, `quality_metrics` /
`vulnerabilities` / `performance_issues` at lines 460-477, `files` only in
the specification) but never written. -/
structure Snapshot where
  repo_info : String
  review_results : ReviewResults
  focus_areas : Option String
  files : Option (List (String × FileRecord))
  code_content : Option (List (String × FileRecord))
  quality_metrics : Option QualityMetrics
  vulnerabilities : Option (List Vulnerability)
  performance_issues : Option (List PerfIssue)
deriving Repr, DecidableEq

/-- The process-lifetime store `repo_data` (`main.py` 17), as a map. -/
def Store : Type := String → Option Snapshot

/-- The empty store (`repo_data = {}`). -/
def emptyStore : Store := fun _ => none

/-- `repo_data[repo_key] = snapshot` (`main.py` 74). -/
def storeInsert (st : Store) (k : String) (v : Snapshot) : Store :=
  fun q => if q = k then some v else st q

/-! ### `review_repository` (`main.py` 27-84) -/

/-- The error outcomes of `review_repository`, tagging which of the Python
error dicts (lines 43, 48, 56, 61) was returned. -/
inductive ReviewError where
  | invalidUrl
  | invalidFormat
  | infoError (msg : String)
  | walkError (e : FetchErr)
deriving Repr, DecidableEq

/-- The success payload of `review_repository` (`main.py` 80-84). -/
structure ReviewSuccess where
  repo : String
  review : ReviewResults
  status : String
deriving Repr, DecidableEq

/-- The outside world as seen by one `review_repository` call: the outcome of
the `fetch_repo_info` HTTP request (`main.py` 621-642), and the contents-API
response tree walked by `fetch_repo_files`. -/
structure ReviewEnv where
  repoInfo : Except String String
  tree : RTree

/-- `create_review_prompt` (`main.py` 764-781). -/
def create_review_prompt (code_content : List (String × FileRecord))
    (focus_areas : Option String) : String :=
  let header := "Please review the following code repository:\n\n" ++
    (match focus_areas with
     | some f => "Focus areas for review: " ++ f ++ "\n\n"
     | none => "Please provide a general code review covering best practices, potential bugs, and performance issues.\n\n")
  code_content.foldl
    (fun acc e =>
      acc ++ "File: " ++ e.1 ++ "\n" ++ "```\n" ++ e.2.content.getD "" ++ "\n```\n\n")
    header

/-- `review_repository` (`main.py` 27-84): resolve the URL, fetch repo info,
walk the tree, then store `{repo_info, review_results, focus_areas}` — and
only those three keys — under `"owner/repo"`.  Returns the tool result
together with the store after the call. -/
def review_repository (env : ReviewEnv) (u : Url) (focus_areas : Option String)
    (store : Store) : Except ReviewError ReviewSuccess × Store :=
  match resolveRepoUrl u with
  | .wrongHost => (.error .invalidUrl, store)
  | .malformedPath => (.error .invalidFormat, store)
  | .ok owner repo =>
    match env.repoInfo with
    | .error msg => (.error (.infoError msg), store)
    | .ok info =>
      match fetch_repo_files env.tree with
      | .error e => (.error (.walkError e), store)
      | .ok files =>
        let code_content := prepare_code_for_review files
        let review_prompt := create_review_prompt code_content focus_areas
        let review_results := generate_review review_prompt
        let repo_key := owner ++ "/" ++ repo
        let snap : Snapshot :=
          { repo_info := info
            review_results := review_results
            focus_areas := focus_areas
            files := none
            code_content := none
            quality_metrics := none
            vulnerabilities := none
            performance_issues := none }
        (.ok { repo := repo_key, review := review_results, status := "completed" },
         storeInsert store repo_key snap)

/-! ### Read-back tools keyed by `repo_key`

Each tool returns `{"error": message}` — one field holding one string —
when the key is absent; this uniform shape is modelled by the `Except.error`
constructor of `Except String _`. -/

/-- `get_review_details` (`main.py` 105-119). -/
def get_review_details (store : Store) (repo_key : String) : Except String Snapshot :=
  match store repo_key with
  | none => .error "Repository review not found."
  | some s => .ok s

/-- One entry of `generate_file_suggestions` (`main.py` 802-814). -/
structure FileSuggestion where
  line : Nat
  suggestion : String
  severity : String
deriving Repr, DecidableEq

/-- `generate_file_suggestions` (`main.py` 802-814): fixed placeholder. -/
def generate_file_suggestions (_file_content : FileRecord) (_file_path : String) :
    List FileSuggestion :=
  [{ line := 10
     suggestion := "Consider using a more descriptive variable name"
     severity := "low" }]

/-- The payload of `generate_repo_suggestions` (`main.py` 817-834). -/
structure RepoSuggestions where
  architecture : List String
  best_practices : List String
  performance : List String
deriving Repr, DecidableEq

/-- `generate_repo_suggestions` (`main.py` 817-834): fixed placeholder. -/
def generate_repo_suggestions (_rd : Snapshot) : RepoSuggestions :=
  { architecture := ["Consider implementing a more modular file structure"]
    best_practices :=
      ["Add comprehensive unit tests for core functionality",
       "Implement proper error handling throughout the codebase"]
    performance := ["Optimize database queries in the user service"] }

/-- The two success shapes of `suggest_improvements`
(`main.py` 147-151 and 155-158). -/
inductive SuggestResult where
  | fileSug (repo : String) (file : String) (suggestions : List FileSuggestion)
  | repoSug (repo : String) (suggestions : RepoSuggestions)
deriving Repr, DecidableEq

/-- Association-list lookup (`file_path in code_content`, then indexing). -/
def lookupPath (l : List (String × FileRecord)) (p : String) : Option FileRecord :=
  (l.find? (fun e => e.1 == p)).map (fun e => e.2)

/-- `suggest_improvements` (`main.py` 122-158).  The stored snapshot's
`code_content` key is read with default `{}` (line 141).  Python's
`if file_path and file_path in code_content` treats the empty string as
falsy, hence the explicit empty-string branch. -/
def suggest_improvements (store : Store) (repo_key : String)
    (file_path : Option String) : Except String SuggestResult :=
  match store repo_key with
  | none => .error "Repository review not found."
  | some rd =>
    let code_content := rd.code_content.getD []
    match file_path with
    | none => .ok (.repoSug repo_key (generate_repo_suggestions rd))
    | some fp =>
      if fp = "" then .ok (.repoSug repo_key (generate_repo_suggestions rd))
      else
        match lookupPath code_content fp with
        | some fc => .ok (.fileSug repo_key fp (generate_file_suggestions fc fp))
        | none => .ok (.repoSug repo_key (generate_repo_suggestions rd))

/-- The `dependencies` counts of `analyze_dependencies` (`main.py` 182-187). -/
structure DependencyCounts where
  direct : Nat
  indirect : Nat
  outdated : Nat
  vulnerable : Nat
deriving Repr, DecidableEq

/-- The success payload of `analyze_dependencies` (`main.py` 180-192). -/
structure DependencyReport where
  repo : String
  dependencies : DependencyCounts
  recommendations : List String
deriving Repr, DecidableEq

/-- `analyze_dependencies` (`main.py` 161-192): fixed placeholder payload for
a known key, `{"error": ...}` for an unknown one. -/
def analyze_dependencies (store : Store) (repo_key : String) :
    Except String DependencyReport :=
  match store repo_key with
  | none => .error "Repository data not found."
  | some _ =>
    .ok { repo := repo_key
          dependencies := { direct := 15, indirect := 47, outdated := 3, vulnerable := 1 }
          recommendations :=
            ["Update lodash from 4.17.15 to 4.17.21 to fix security vulnerabilities",
             "Consider replacing moment.js with date-fns for better tree-shaking"] }

/-- `cyclomatic_complexity` of `analyze_code_quality` (`main.py` 262-266). -/
structure Complexity where
  average : Nat
  worst_file : String
  worst_value : Nat
deriving Repr, DecidableEq

/-- `code_duplication` of `analyze_code_quality` (`main.py` 267-273). -/
structure Duplication where
  percentage : ℚ
  hotspots : List String
deriving Repr, DecidableEq

/-- `test_coverage` of `analyze_code_quality` (`main.py` 274-280). -/
structure Coverage where
  percentage : Nat
  uncovered_critical_paths : List String
deriving Repr, DecidableEq

/-- `quality_metrics` of `analyze_code_quality` (`main.py` 260-281). -/
structure QualityPayload where
  maintainability_index : Nat
  cyclomatic_complexity : Complexity
  code_duplication : Duplication
  test_coverage : Coverage
deriving Repr, DecidableEq

/-- The success payload of `analyze_code_quality` (`main.py` 258-287). -/
structure QualityReport where
  repo : String
  quality_metrics : QualityPayload
  recommendations : List String
deriving Repr, DecidableEq

/-- `analyze_code_quality` (`main.py` 239-287). -/
def analyze_code_quality (store : Store) (repo_key : String) :
    Except String QualityReport :=
  match store repo_key with
  | none => .error "Repository data not found."
  | some _ =>
    .ok { repo := repo_key
          quality_metrics :=
            { maintainability_index := 75
              cyclomatic_complexity :=
                { average := 12
                  worst_file := "src/utils/data-processor.js"
                  worst_value := 45 }
              code_duplication :=
                { percentage := 7.5
                  hotspots := ["src/components/forms", "src/utils/helpers.js"] }
              test_coverage :=
                { percentage := 68
                  uncovered_critical_paths :=
                    ["src/services/authentication.js", "src/controllers/payment.js"] } }
          recommendations :=
            ["Refactor src/utils/data-processor.js to reduce complexity",
             "Extract duplicated code in form components into shared utilities",
             "Add integration tests for critical user flows"] }

/-- A `performance_issues` item of `analyze_performance` (`main.py` 311-326). -/
structure PerfFinding where
  severity : String
  description : String
  location : String
  impact : String
  suggestion : String
deriving Repr, DecidableEq

/-- The success payload of `analyze_performance` (`main.py` 309-332). -/
structure PerformanceReport where
  repo : String
  performance_issues : List PerfFinding
  optimization_opportunities : List String
deriving Repr, DecidableEq

/-- `analyze_performance` (`main.py` 290-332). -/
def analyze_performance (store : Store) (repo_key : String) :
    Except String PerformanceReport :=
  match store repo_key with
  | none => .error "Repository data not found."
  | some _ =>
    .ok { repo := repo_key
          performance_issues :=
            [{ severity := "high"
               description := "Inefficient database query with N+1 problem"
               location := "src/services/products.js:67"
               impact := "Slow page load times when listing products with many relations"
               suggestion := "Use eager loading or GraphQL to fetch all needed data in one query" },
             { severity := "medium"
               description := "Render blocking JavaScript"
               location := "public/index.html:15-18"
               impact := "Delayed page interactivity and poor Lighthouse score"
               suggestion := "Use defer attribute or move script tags to end of body" }]
          optimization_opportunities :=
            ["Implement code splitting to reduce initial bundle size",
             "Add caching headers for static assets",
             "Consider server-side rendering for initial page load"] }

/-! ### `generate_cascade_prompt` (`main.py` 436-544) -/

/-- The string built for one vulnerability (`main.py` 468-470). -/
def vulnImprovement (v : Vulnerability) : String :=
  "Fix " ++ v.severity ++ " security issue in " ++ v.location ++ ": " ++
    v.description ++ " by " ++ v.remediation

/-- The string built for one performance issue (`main.py` 475-477). -/
def perfImprovement (i : PerfIssue) : String :=
  "Fix " ++ i.severity ++ " performance issue in " ++ i.location ++ ": " ++
    i.description ++ " by " ++ i.suggestion

/-- Python substring containment on strings (`needle in hay`). -/
def strHasSub (hay needle : String) : Bool :=
  listHasSub needle.toList hay.toList

/-- The fallback improvement lists of `generate_cascade_prompt`
(`main.py` 479-514): chosen from hints in the repository name part of the
key. -/
def defaultImprovements (repo_key : String) : List String :=
  let repo_name :=
    if strHasSub repo_key "/" then ((strSplitChar repo_key '/').getD 1 "")
    else repo_key
  if strHasSub (strToLower repo_name) "admin" then
    ["Implement proper authentication checks in admin routes to enhance security",
     "Add comprehensive error handling for admin operations to improve UX",
     "Refactor dashboard components for better code reusability",
     "Optimize API calls with pagination and caching for better performance",
     "Add comprehensive input validation to prevent security vulnerabilities",
     "Improve accessibility (ARIA attributes) in dashboard forms and tables",
     "Implement proper loading states for asynchronous operations"]
  else if strHasSub (strToLower repo_name) "react" || strHasSub (strToLower repo_name) "vue" ||
      strHasSub (strToLower repo_name) "angular" then
    ["Implement React.memo() for performance optimization of functional components",
     "Convert class components to functional components with hooks for better maintainability",
     "Add comprehensive PropTypes validation to improve code reliability",
     "Implement proper error boundaries to prevent UI crashes",
     "Optimize component rendering with useMemo and useCallback",
     "Add comprehensive unit tests for critical components",
     "Improve state management with context API or Redux"]
  else
    ["Implement comprehensive error handling throughout the application",
     "Add unit tests to improve code coverage and reliability",
     "Refactor duplicate code into reusable functions/components",
     "Optimize performance for critical application paths",
     "Add proper documentation for key functions and components",
     "Implement proper input validation and sanitization",
     "Update dependencies to latest stable versions"]

/-- The result of `generate_cascade_prompt` (`main.py` 540-544).  The
`cascade_prompt` string is a fixed template around the numbered list of
`improvements`, so the prompt is modelled by that list; `improvement_count`
is `len(all_improvements)` exactly as in the source. -/
structure CascadeResult where
  repo : String
  improvements : List String
  improvement_count : Nat
deriving Repr, DecidableEq

/-- `generate_cascade_prompt` (`main.py` 436-544): collect recommendations
from the optional `quality_metrics`, `vulnerabilities` and
`performance_issues` keys of the stored snapshot; when none are present fall
back to `defaultImprovements`. -/
def generate_cascade_prompt (store : Store) (repo_key : String) :
    Except String CascadeResult :=
  match store repo_key with
  | none => .error "Repository data not found."
  | some rd =>
    let fromQuality :=
      match rd.quality_metrics with
      | some qm => qm.recommendations.getD []
      | none => []
    let fromVulns := (rd.vulnerabilities.getD []).map vulnImprovement
    let fromPerf := (rd.performance_issues.getD []).map perfImprovement
    let gathered := fromQuality ++ fromVulns ++ fromPerf
    let all_improvements :=
      if gathered.isEmpty then defaultImprovements repo_key else gathered
    .ok { repo := repo_key
          improvements := all_improvements
          improvement_count := all_improvements.length }

/-! ### Concrete fixtures used by the theorems below -/

/-- A plain decodable source file record, as `fetch_file_content` builds it
on success (`main.py` 714-719). -/
def mkRec (p : String) (s : Nat) (c : String) : FileRecord :=
  { content := some c, path := p, size := s, too_large := false, is_binary := false }

/-- The end-to-end scenario of the specification: the origin serves a root
listing with `app.py` (50 bytes, decodable) and `logo.png`
(2,000,000 bytes).  The oversized entry's content request is wired to an
error to witness that it is never issued. -/
def acmeTree : RTree :=
  .dirN "" [.fileN "app.py" 50 (.ok (mkRec "app.py" 50 "print(1)\n")),
            .fileN "logo.png" 2000000 (.error (.notFound "logo.png"))]

/-- Environment for the end-to-end scenario: repo-info fetch succeeds. -/
def acmeEnv : ReviewEnv := { repoInfo := .ok "acme-widgets-metadata", tree := acmeTree }

/-- `https://github.com/acme/widgets` after `urlparse`. -/
def acmeUrl : Url := { netloc := "github.com", path := "/acme/widgets" }

/-- The snapshot that `review_repository` stores in the end-to-end scenario:
only `repo_info`, `review_results` and `focus_areas` are present. -/
def acmeSnap : Snapshot :=
  { repo_info := "acme-widgets-metadata"
    review_results :=
      { summary := "Code review generated successfully"
        details := "This is a placeholder for the actual code review that would be generated by Claude." }
    focus_areas := none
    files := none
    code_content := none
    quality_metrics := none
    vulnerabilities := none
    performance_issues := none }

/-- The tool result of the successful end-to-end `review_repository` call. -/
def acmeRes : ReviewSuccess :=
  { repo := "acme/widgets", review := acmeSnap.review_results, status := "completed" }

/-- A synthetic origin nested five directory levels deep, with one code file
at every level. -/
def tree5 : RTree :=
  .dirN ""
    [.fileN "f0.py" 10 (.ok (mkRec "f0.py" 10 "c0")),
     .dirN "a"
       [.fileN "a/f1.py" 10 (.ok (mkRec "a/f1.py" 10 "c1")),
        .dirN "a/b"
          [.fileN "a/b/f2.py" 10 (.ok (mkRec "a/b/f2.py" 10 "c2")),
           .dirN "a/b/c"
             [.fileN "a/b/c/f3.py" 10 (.ok (mkRec "a/b/c/f3.py" 10 "c3")),
              .dirN "a/b/c/d"
                [.fileN "a/b/c/d/f4.py" 10 (.ok (mkRec "a/b/c/d/f4.py" 10 "c4")),
                 .dirN "a/b/c/d/e"
                   [.fileN "a/b/c/d/e/f5.py" 10 (.ok (mkRec "a/b/c/d/e/f5.py" 10 "c5"))]]]]]]

/-- The mapping the walk of `tree5` produces. -/
def tree5Expected : List (String × FileRecord) :=
  [("f0.py", mkRec "f0.py" 10 "c0"),
   ("a/f1.py", mkRec "a/f1.py" 10 "c1"),
   ("a/b/f2.py", mkRec "a/b/f2.py" 10 "c2"),
   ("a/b/c/f3.py", mkRec "a/b/c/f3.py" 10 "c3"),
   ("a/b/c/d/f4.py", mkRec "a/b/c/d/f4.py" 10 "c4")]

/-- Three sibling files at the root where the second one's content fetch is
rejected with a rate-limit error. -/
def threeSibTree : RTree :=
  .dirN ""
    [.fileN "f1.py" 10 (.ok (mkRec "f1.py" 10 "a1")),
     .fileN "f2.py" 10 (.error (.rateLimited "API rate limit exceeded")),
     .fileN "f3.py" 10 (.ok (mkRec "f3.py" 10 "a3"))]

/-- A URL on a host that merely *contains* `github.com` as a substring. -/
def spoofUrl : Url := { netloc := "notgithub.com", path := "/a/b" }

/-- `True` iff the root node itself is a failed directory listing. -/
def rootListingFails : RTree → Bool
  | .dirErrN _ _ => true
  | _ => false

/-- A store holding one arbitrary snapshot, used as a concrete witness. -/
def demoStore : Store := storeInsert emptyStore "someone/something" acmeSnap

/-- An environment whose components are irrelevant because URL validation
fails first. -/
def demoEnv : ReviewEnv := { repoInfo := .ok "metadata", tree := .dirN "" [] }

/-- A URL on an unrelated host. -/
def badUrl : Url := { netloc := "example.com", path := "/a/b" }

/-! ## Helper lemmas -/

/-- The executable substring test agrees with Mathlib's infix relation. -/
theorem listHasSub_iff (n h : List Char) : listHasSub n h = true ↔ n <:+: h := by
  induction h with
  | nil =>
    simp [listHasSub, List.isPrefixOf_iff_prefix, List.prefix_nil]
  | cons c cs ih =>
    simp [listHasSub, List.isPrefixOf_iff_prefix, List.infix_cons_iff, ih]

/-- Each of the three fallback lists of `generate_cascade_prompt` has exactly
seven entries, so the fallback count is 7 whatever the key. -/
theorem defaultImprovements_length (k : String) : (defaultImprovements k).length = 7 := by
  simp only [defaultImprovements]
  split <;> split
  all_goals first | rfl | (split <;> rfl)

/-! ## Claim theorems -/

/-- Claim C3 (code bug witness): a `.py` file record flagged `is_binary` is
*retained* by `prepare_code_for_review`, because the pipeline stores a
sentinel string under `"content"` for binary files and the filter only tests
for the presence of that key — contradicting both the claim and the
source's own comment at `main.py` line 746 ("Skip binary files, large
files, etc.").  The same happens for a `too_large` record. -/
theorem binary_py_record_retained :
    prepare_code_for_review [("img.py", binaryRecord "img.py" 5)] =
      [("img.py", binaryRecord "img.py" 5)] ∧
    (binaryRecord "img.py" 5).is_binary = true ∧
    prepare_code_for_review [("big.py", tooLargeRecord "big.py" 2000000)] =
      [("big.py", tooLargeRecord "big.py" 2000000)] ∧
    (tooLargeRecord "big.py" 2000000).too_large = true :=
  ⟨rfl, rfl, rfl, rfl⟩

/-- Claim C9: the Code Filter is idempotent — filtering an already filtered
mapping changes nothing. -/
theorem prepare_code_for_review_idempotent (m : List (String × FileRecord)) :
    prepare_code_for_review (prepare_code_for_review m) = prepare_code_for_review m := by
  simp [prepare_code_for_review, List.filter_filter]

/-- Claim C5 (counterexample): the host check of `review_repository` is a
substring test, so `https://notgithub.com/a/b` — whose host is *not* the
expected `github.com` — is accepted and resolved to owner `a`, repo `b`,
refuting "rejects exactly those URLs whose host is not the expected origin
host". -/
theorem spoof_host_accepted :
    resolveRepoUrl spoofUrl = .ok "a" "b" ∧
    (spoofUrl.netloc == "github.com") = false :=
  ⟨rfl, rfl⟩

/-- Claim C5 (amended): URL resolution rejects with `WrongHost` exactly the
URLs whose netloc does not contain `"github.com"` as a substring; among the
remaining ones it rejects with `MalformedPath` exactly those whose path has
fewer than two nonempty `/`-separated segments; otherwise it returns the
first segment as owner and the second as name, ignoring trailing
segments. -/
theorem resolve_characterization (u : Url) :
    (resolveRepoUrl u = .wrongHost ↔ ¬ ("github.com".toList <:+: u.netloc.toList)) ∧
    (resolveRepoUrl u = .malformedPath ↔
      ("github.com".toList <:+: u.netloc.toList) ∧ (urlSegments u).length < 2) ∧
    (∀ o r, resolveRepoUrl u = .ok o r ↔
      ("github.com".toList <:+: u.netloc.toList) ∧
        ∃ rest, urlSegments u = o :: r :: rest) := by
  have hsub : hostAccepted u = true ↔ ("github.com".toList <:+: u.netloc.toList) :=
    listHasSub_iff _ _
  by_cases hb : hostAccepted u = true
  · have hinf := hsub.mp hb
    rcases hseg : urlSegments u with _ | ⟨o1, _ | ⟨r1, rest⟩⟩
    · have hres : resolveRepoUrl u = .malformedPath := by
        unfold resolveRepoUrl
        rw [if_pos hb, hseg]
      rw [hres]
      refine ⟨⟨fun h => (nomatch h), fun h => absurd hinf h⟩,
        ⟨fun _ => ⟨hinf, Nat.zero_lt_succ 1⟩, fun _ => rfl⟩,
        fun o r => ⟨fun h => (nomatch h), ?_⟩⟩
      rintro ⟨-, rest2, hx⟩
      exact nomatch hx
    · have hres : resolveRepoUrl u = .malformedPath := by
        unfold resolveRepoUrl
        rw [if_pos hb, hseg]
      rw [hres]
      refine ⟨⟨fun h => (nomatch h), fun h => absurd hinf h⟩,
        ⟨fun _ => ⟨hinf, Nat.lt_succ_self 1⟩, fun _ => rfl⟩,
        fun o r => ⟨fun h => (nomatch h), ?_⟩⟩
      rintro ⟨-, rest2, hx⟩
      injection hx with _ h2
      exact nomatch h2
    · have hres : resolveRepoUrl u = .ok o1 r1 := by
        unfold resolveRepoUrl
        rw [if_pos hb, hseg]
      rw [hres]
      refine ⟨⟨fun h => (nomatch h), fun h => absurd hinf h⟩,
        ⟨fun h => (nomatch h), fun h => ?_⟩,
        fun o r => ⟨fun h => ?_, ?_⟩⟩
      · have h2 := h.2
        simp only [List.length_cons] at h2
        omega
      · cases h
        exact ⟨hinf, rest, rfl⟩
      · rintro ⟨-, rest2, hx⟩
        injection hx with h1 h2
        injection h2 with h3 _
        rw [h1, h3]
  · have hres : resolveRepoUrl u = .wrongHost := by
      unfold resolveRepoUrl
      rw [if_neg hb]
    have hinf : ¬ ("github.com".toList <:+: u.netloc.toList) := fun h => hb (hsub.mpr h)
    rw [hres]
    exact ⟨⟨fun _ => hinf, fun _ => rfl⟩,
      ⟨fun h => (nomatch h), fun h => absurd h.1 hinf⟩,
      fun o r => ⟨fun h => (nomatch h), fun h => absurd h.1 hinf⟩⟩

/-- Claim C4 (counterexample): on the 5-level synthetic origin the walk
*does* return files whose paths carry 3 and even 4 `/` separators, refuting
"a tree nested 5 levels deep yields no files from depth ≥ 3".  The depth
guard of `main.py` line 685 compares the *parent* directory's path, so
recursion still enters directories whose own path has up to 3 separators. -/
theorem depth3_and_depth4_files_present :
    fetch_repo_files tree5 = .ok tree5Expected ∧
    tree5Expected.map Prod.fst =
      ["f0.py", "a/f1.py", "a/b/f2.py", "a/b/c/f3.py", "a/b/c/d/f4.py"] ∧
    slashCount "a/b/c/f3.py" = 3 ∧
    slashCount "a/b/c/d/f4.py" = 4 :=
  ⟨rfl, rfl, rfl, rfl⟩

/-- Claim C4 (amended): the Walker recurses into a subdirectory only if the
*parent* directory's path has fewer than 3 `/` separators; on the 5-level
synthetic origin this yields exactly the files at path slash-depths
0 through 4 — each present once — while the level-5 file (slash-depth 5)
is absent. -/
theorem walker_depth_bound :
    fetch_repo_files tree5 = .ok tree5Expected ∧
    tree5Expected.map (fun e => slashCount e.1) = [0, 1, 2, 3, 4] ∧
    ((tree5Expected.map Prod.fst).contains "a/b/c/d/e/f5.py") = false :=
  ⟨rfl, rfl, rfl⟩

/-- Claim C2 (counterexample): with three sibling files whose second content
fetch fails with `RateLimited`, the walk succeeds with the partial
two-entry mapping — the error is silently dropped (`main.py` 674), refuting
"the walk's overall result is that single error" and "partial results are
discarded". -/
theorem sibling_error_skipped :
    fetch_repo_files threeSibTree =
      .ok [("f1.py", mkRec "f1.py" 10 "a1"), ("f3.py", mkRec "f3.py" 10 "a3")] :=
  rfl

/-- Claim C2 (amended): the walk fails if and only if the listing request of
the node it was called on itself fails; every error arising deeper in the
traversal — a file content fetch or a subdirectory listing — is silently
skipped, and the walk returns the partial mapping of the successfully
fetched files. -/
theorem walk_error_iff_root_listing_error (path : String) (node : RTree) :
    (fetchRepoFilesAt path node).isOk = !(rootListingFails node) := by
  cases node with
  | fileN p s fres => cases fres <;> rfl
  | dirN p children => rfl
  | dirErrN p e => rfl

/-- Claim C7: a directory entry of type `file` whose reported size is at
least 1 MiB is represented as a `too_large` record preserving its path and
size, and the result does not depend on what a content fetch would have
returned (the fetch is never issued); an entry strictly below 1 MiB has its
content fetched and, on success, the fetched record is inserted under the
entry's path. -/
theorem file_entry_size_policy (cur p : String) (s : Nat)
    (fres fres2 : Except FetchErr FileRecord) :
    (1024 * 1024 ≤ s →
      processItem cur (.fileN p s fres) = [(p, tooLargeRecord p s)] ∧
      processItem cur (.fileN p s fres) = processItem cur (.fileN p s fres2) ∧
      (tooLargeRecord p s).too_large = true ∧
      (tooLargeRecord p s).path = p ∧
      (tooLargeRecord p s).size = s) ∧
    (s < 1024 * 1024 → ∀ fr : FileRecord,
      processItem cur (.fileN p s (.ok fr)) = [(p, fr)]) := by
  constructor
  · intro hbig
    have hnot : ¬ s < 1024 * 1024 := by omega
    refine ⟨?_, ?_, rfl, rfl, rfl⟩
    · show (if s < 1024 * 1024 then _ else _) = _
      rw [if_neg hnot]
    · show (if s < 1024 * 1024 then _ else _) = (if s < 1024 * 1024 then _ else _)
      rw [if_neg hnot, if_neg hnot]
  · intro hsmall fr
    show (if s < 1024 * 1024 then _ else _) = _
    rw [if_pos hsmall]

/-- Witness for C7 at concrete inputs: a 2,000,000-byte `logo.png` becomes
the `too_large` record whatever its wired fetch result, and a 50-byte
`app.py` yields its fetched record. -/
theorem file_entry_size_policy_witness :
    processItem "" (.fileN "logo.png" 2000000 (.error (.notFound "logo.png"))) =
      [("logo.png", tooLargeRecord "logo.png" 2000000)] ∧
    processItem "" (.fileN "app.py" 50 (.ok (mkRec "app.py" 50 "print(1)\n"))) =
      [("app.py", mkRec "app.py" 50 "print(1)\n")] :=
  ⟨(file_entry_size_policy "" "logo.png" 2000000 (.error (.notFound "logo.png"))
      (.error (.notFound "logo.png"))).1 (by omega) |>.1,
   (file_entry_size_policy "" "app.py" 50 (.ok (mkRec "app.py" 50 "print(1)\n"))
      (.ok (mkRec "app.py" 50 "print(1)\n"))).2 (by omega) (mkRec "app.py" 50 "print(1)\n")⟩

/-- Claim C6: for a key absent from the Store, `get_review_details`,
`suggest_improvements`, `analyze_dependencies`, `analyze_code_quality` and
`analyze_performance` all answer with the same `{"error": message}` shape —
a single field holding a single string, modelled by the `Except.error`
constructor.  The message text is `"Repository review not found."` for the
first two and `"Repository data not found."` for the `analyze_*` tools; the
shape (field name and nesting, the notion of shape fixed in the
specification) is identical. -/
theorem unknown_key_uniform_error (store : Store) (key : String)
    (h : store key = none) :
    get_review_details store key = .error "Repository review not found." ∧
    (∀ fp : Option String,
      suggest_improvements store key fp = .error "Repository review not found.") ∧
    analyze_dependencies store key = .error "Repository data not found." ∧
    analyze_code_quality store key = .error "Repository data not found." ∧
    analyze_performance store key = .error "Repository data not found." := by
  refine ⟨?_, fun fp => ?_, ?_, ?_, ?_⟩ <;>
    simp [get_review_details, suggest_improvements, analyze_dependencies,
      analyze_code_quality, analyze_performance, h]

/-- Witness for C6 on the empty store. -/
theorem unknown_key_uniform_error_witness :
    get_review_details emptyStore "acme/widgets" = .error "Repository review not found." ∧
    suggest_improvements emptyStore "acme/widgets" none = .error "Repository review not found." ∧
    analyze_dependencies emptyStore "acme/widgets" = .error "Repository data not found." ∧
    analyze_code_quality emptyStore "acme/widgets" = .error "Repository data not found." ∧
    analyze_performance emptyStore "acme/widgets" = .error "Repository data not found." := by
  have t := unknown_key_uniform_error emptyStore "acme/widgets" rfl
  exact ⟨t.1, t.2.1 none, t.2.2.1, t.2.2.2.1, t.2.2.2.2⟩

/-- Claim C8: whenever `review_repository` fails — wrong host, malformed
path, repo-info fetch error, or walk error — the store after the call is the
store before it, so any prior snapshot bound to the repository's key is left
completely unchanged. -/
theorem review_failure_preserves_store (env : ReviewEnv) (u : Url)
    (fa : Option String) (store : Store) (e : ReviewError) (st2 : Store)
    (h : review_repository env u fa store = (.error e, st2)) : st2 = store := by
  unfold review_repository at h
  rcases hr : resolveRepoUrl u with _ | _ | ⟨o, r⟩ <;> simp only [hr] at h
  · injection h with _ h2
    exact h2.symm
  · injection h with _ h2
    exact h2.symm
  · rcases hi : env.repoInfo with msg | info <;> simp only [hi] at h
    · injection h with _ h2
      exact h2.symm
    · rcases hw : fetch_repo_files env.tree with e2 | files <;> simp only [hw] at h
      · injection h with _ h2
        exact h2.symm
      · injection h with h1 _
        exact nomatch h1

/-- Witness for C8: a call on a non-GitHub URL leaves a nonempty store
untouched. -/
theorem review_failure_preserves_store_witness :
    (review_repository demoEnv badUrl none demoStore).2 = demoStore :=
  review_failure_preserves_store demoEnv badUrl none demoStore .invalidUrl
    ((review_repository demoEnv badUrl none demoStore).2) rfl

/-- Claim C10: after any successful `review_repository` call, the stored
snapshot carries none of the `quality_metrics` / `vulnerabilities` /
`performance_issues` keys, so `generate_cascade_prompt` on that key takes
the fallback branch and returns `improvement_count = 7` — each fallback
list having exactly seven entries. -/
theorem cascade_after_review (env : ReviewEnv) (u : Url) (fa : Option String)
    (store : Store) (res : ReviewSuccess) (st2 : Store)
    (h : review_repository env u fa store = (.ok res, st2)) :
    generate_cascade_prompt st2 res.repo =
      .ok { repo := res.repo
            improvements := defaultImprovements res.repo
            improvement_count := 7 } := by
  unfold review_repository at h
  rcases hr : resolveRepoUrl u with _ | _ | ⟨o, r⟩ <;> simp only [hr] at h
  · injection h with h1 _
    exact nomatch h1
  · injection h with h1 _
    exact nomatch h1
  · rcases hi : env.repoInfo with msg | info <;> simp only [hi] at h
    · injection h with h1 _
      exact nomatch h1
    · rcases hw : fetch_repo_files env.tree with e2 | files <;> simp only [hw] at h
      · injection h with h1 _
        exact nomatch h1
      · injection h with h1 h2
        injection h1 with h1
        subst h1
        subst h2
        simp [generate_cascade_prompt, storeInsert, defaultImprovements_length]

/-- Witness for C10: the end-to-end scenario's stored key yields the
seven-entry fallback. -/
theorem cascade_after_review_witness :
    generate_cascade_prompt
        (review_repository acmeEnv acmeUrl none emptyStore).2 "acme/widgets" =
      .ok { repo := "acme/widgets"
            improvements := defaultImprovements "acme/widgets"
            improvement_count := 7 } :=
  cascade_after_review acmeEnv acmeUrl none emptyStore acmeRes
    ((review_repository acmeEnv acmeUrl none emptyStore).2) rfl

/-- Claim C1 (code bug witness): the end-to-end scenario succeeds — the
walk visits `app.py` and `logo.png`, and the Code Filter would keep exactly
`app.py` — yet the snapshot actually stored under `"acme/widgets"` contains
*no* `files` key and *no* `code_content` key: `review_repository` stores
only `repo_info`, `review_results` and `focus_areas` (`main.py` 74-78),
although `suggest_improvements` (line 141) and `generate_improved_code`
(line 567) read `code_content` from the stored snapshot. -/
theorem stored_snapshot_lacks_files_and_code_content :
    (review_repository acmeEnv acmeUrl none emptyStore).1 = .ok acmeRes ∧
    (review_repository acmeEnv acmeUrl none emptyStore).2 "acme/widgets" = some acmeSnap ∧
    acmeSnap.files = none ∧
    acmeSnap.code_content = none ∧
    fetch_repo_files acmeTree =
      .ok [("app.py", mkRec "app.py" 50 "print(1)\n"),
           ("logo.png", tooLargeRecord "logo.png" 2000000)] ∧
    prepare_code_for_review
        [("app.py", mkRec "app.py" 50 "print(1)\n"),
         ("logo.png", tooLargeRecord "logo.png" 2000000)] =
      [("app.py", mkRec "app.py" 50 "print(1)\n")] :=
  ⟨rfl, rfl, rfl, rfl, rfl, rfl⟩

end McpServerDemo
